import Mathlib

/-!
Shallow embedding of the data-transformation pipeline of the fuel dashboard
(`src/app6.py` and `src/app7.py`).

Modelling conventions:
* a pandas DataFrame row becomes a `Record`; a DataFrame becomes a `Table`
  (an ordered list of records, row order = DataFrame order);
* `Date` values are calendar days encoded as integers (day 0 is a Monday, so
  `dayofweek d = d % 7` matches `pandas .dt.dayofweek` with Monday = 0);
* the five numeric columns are `Option ℚ`: `none` models a missing value
  (`NaN`); pandas `sum` skips `NaN` (`psum`), pandas `mean` skips `NaN` and
  yields `NaN` on an empty/all-missing series (`pmean`);
* `.round(1)` is numpy rounding, i.e. round half to even at one decimal
  (`round1`);
* `Series.unique()` keeps first occurrences in row order (`uniqueList`);
* `groupby` with the default `sort=True` sorts the group keys by the string
  code-point order (`pyStrLt`, matching Python string comparison);
* `sort_values` is modelled as a stable sort (`List.insertionSort`), which is
  what numpy's default sort performs on the small per-sector group lists.
-/

/-- Record models one row of the uploaded table after cleaning: `Date` parsed to a
calendar day (integer, day 0 a Monday), the five numeric columns coerced to
float with `none` for a missing value (NaN). -/
structure Record where
  date : ℤ
  sector : String
  post : String
  tank_capacity : Option ℚ
  reported_stock : Option ℚ
  available_storage_space : Option ℚ
  avg_daily_consumption : Option ℚ
  days_of_supply : Option ℚ
deriving DecidableEq

/-- Table is an ordered sequence of records, the embedding of a DataFrame. -/
abbrev Table := List Record

/-- UNDOF is the excluded pseudo-sector literal (`app6.py` line 32, `app7.py` line 50). -/
def UNDOF : String := "UNDOF Vehicle Registration"

/-- dayofweek models `pandas .dt.dayofweek` / `datetime.weekday()`: Monday = 0,
Sunday = 6; day 0 of the encoding is a Monday. -/
def dayofweek (d : ℤ) : ℤ := d % 7

/-- psum models `pandas Series.sum()` with the default `skipna=True`: missing
values contribute nothing, the sum of an empty series is 0. -/
def psum (l : List (Option ℚ)) : ℚ := (l.map (fun o => o.getD 0)).sum

/-- pcount is the number of non-missing entries of a series. -/
def pcount (l : List (Option ℚ)) : ℕ := l.countP (fun o => o.isSome)

/-- pmean models `pandas Series.mean()` with the default `skipna=True`: the sum of
the non-missing entries divided by their count, `NaN` (`none`) if there are none. -/
def pmean (l : List (Option ℚ)) : Option ℚ :=
  if pcount l = 0 then none else some (psum l / (pcount l : ℚ))

/-- rhe is round-half-to-even of a rational to an integer (numpy rounding),
computed on the numerator/denominator: `f` is the floor and `t/d` compares the
fractional part against 1/2. -/
def rhe (q : ℚ) : ℤ :=
  let n := q.num
  let d : ℤ := (q.den : ℤ)
  let f := n.fdiv d
  let t := 2 * (n - f * d)
  if t < d then f
  else if d < t then f + 1
  else if f % 2 = 0 then f else f + 1

/-- round1 models `.round(1)` (numpy round half to even at one decimal). -/
def round1 (q : ℚ) : ℚ := ((rhe (10 * q) : ℤ) : ℚ) / 10

/-- uniqueAux scans a list keeping the first occurrence of each value not already
seen, the way `pandas Series.unique()` walks the column with a set of seen
values. -/
def uniqueAux {α : Type} [DecidableEq α] (seen : List α) : List α → List α
  | [] => []
  | a :: l => if a ∈ seen then uniqueAux seen l else a :: uniqueAux (a :: seen) l

/-- uniqueList models `pandas Series.unique()`: the distinct values in order of
first occurrence. -/
def uniqueList {α : Type} [DecidableEq α] (l : List α) : List α := uniqueAux [] l

/-- ltChars is strict lexicographic comparison of character lists by code point,
the order Python uses on strings. -/
def ltChars : List Char → List Char → Bool
  | [], [] => false
  | [], _ :: _ => true
  | _ :: _, [] => false
  | c :: cs, d :: ds =>
    if c.toNat < d.toNat then true
    else if d.toNat < c.toNat then false
    else ltChars cs ds

/-- pyStrLt is Python's strict `<` on strings (lexicographic by code point). -/
def pyStrLt (a b : String) : Bool := ltChars a.data b.data

/-- strKeyLe is the non-strict key order used to model `groupby(sort=True)`
sorting its group keys. -/
def strKeyLe (a b : String) : Prop := pyStrLt a b = true ∨ a = b

instance : DecidableRel strKeyLe := fun a b =>
  inferInstanceAs (Decidable (pyStrLt a b = true ∨ a = b))

/-- capGe orders `(sector, summed capacity)` pairs by descending capacity, the
comparison behind `sort_values(by='Tank Capacity', ascending=False)`. -/
def capGe (a b : String × ℚ) : Prop := b.2 ≤ a.2

instance : DecidableRel capGe := fun a b => inferInstanceAs (Decidable (b.2 ≤ a.2))

instance : IsTotal (String × ℚ) capGe := ⟨fun a b => le_total b.2 a.2⟩

instance : IsTrans (String × ℚ) capGe := ⟨fun _ _ _ h1 h2 => le_trans h2 h1⟩

namespace App6

/-- weekdayFilter embeds `app6.py` line 29: keep only rows whose date falls on
Monday..Friday (`dayofweek < 5`). -/
def weekdayFilter (df : Table) : Table :=
  df.filter (fun r => decide (dayofweek r.date < 5))

/-- sectorFilter embeds `app6.py` line 32: drop every row of the excluded
pseudo-sector. -/
def sectorFilter (df : Table) : Table :=
  df.filter (fun r => decide (r.sector ≠ UNDOF))

/-- workingTable is `df_filtered` of `app6.py`: the weekend filter (line 29)
followed by the sector filter (line 32). -/
def workingTable (df : Table) : Table := sectorFilter (weekdayFilter df)

/-- lastDay embeds `app6.py` line 39: the maximum date of the working table. -/
def lastDay (t : Table) : ℤ := ((t.map Record.date).max?).getD 0

/-- df_last_day embeds `app6.py` line 42: the last-day subset. -/
def df_last_day (t : Table) : Table :=
  t.filter (fun r => decide (r.date = lastDay t))

/-- total_consumption_last_day embeds `app6.py` line 43. -/
def total_consumption_last_day (t : Table) : ℚ :=
  round1 (psum ((df_last_day t).map Record.avg_daily_consumption))

/-- reported_stock_last_day embeds `app6.py` line 47. -/
def reported_stock_last_day (t : Table) : ℚ :=
  round1 (psum ((df_last_day t).map Record.reported_stock))

/-- df_last_5_days embeds `app6.py` lines 51-52: rows whose date is at least
`last_day - timedelta(days=5)` (inclusive boundary). -/
def df_last_5_days (t : Table) : Table :=
  t.filter (fun r => decide (lastDay t - 5 ≤ r.date))

/-- avg_consumption_last_5_days embeds `app6.py` line 55: the MEAN of
`Avg Daily Consumption` over the trailing window, rounded; `none` models the
NaN produced when the window has no non-missing value. -/
def avg_consumption_last_5_days (t : Table) : Option ℚ :=
  (pmean ((df_last_5_days t).map Record.avg_daily_consumption)).map round1

/-- total_consumption_last_5_days embeds `app6.py` line 58: the SUM of
`Avg Daily Consumption` over the trailing window, rounded. -/
def total_consumption_last_5_days (t : Table) : ℚ :=
  round1 (psum ((df_last_5_days t).map Record.avg_daily_consumption))

/-- avg_last_5_days_reported_stock embeds `app6.py` line 62: the sum of
`Reported Stock` over the trailing window, rounded. -/
def avg_last_5_days_reported_stock (t : Table) : ℚ :=
  round1 (psum ((df_last_5_days t).map Record.reported_stock))

/-- firstDay embeds `app6.py` lines 66 and 89: the minimum date of the working
table (`first_day_tank` and `first_day` are the same expression). -/
def firstDay (t : Table) : ℤ := ((t.map Record.date).min?).getD 0

/-- df_first_day embeds `app6.py` lines 67 and 90: the first-day subset. -/
def df_first_day (t : Table) : Table :=
  t.filter (fun r => decide (r.date = firstDay t))

/-- total_tank_capacity embeds `app6.py` line 68: sum of `Tank Capacity` over the
first-day subset (not rounded). -/
def total_tank_capacity (t : Table) : ℚ :=
  psum ((df_first_day t).map Record.tank_capacity)

/-- percentage_full_capacity embeds `app6.py` line 72, including the
`if total_tank_capacity > 0 else 0` guard. -/
def percentage_full_capacity (t : Table) : ℚ :=
  if 0 < total_tank_capacity t then
    avg_last_5_days_reported_stock t / total_tank_capacity t * 100
  else 0

/-- vacancy_rate embeds `app6.py` line 73. -/
def vacancy_rate (t : Table) : ℚ := 100 - percentage_full_capacity t

/-- sortedSectorKeys models the group keys produced by
`groupby('Sector', sort=True)`: the distinct sectors in ascending string order. -/
def sortedSectorKeys (rows : Table) : List String :=
  List.insertionSort strKeyLe (uniqueList (rows.map Record.sector))

/-- groupbySums embeds `app6.py` line 91:
`groupby('Sector')['Tank Capacity'].sum().reset_index()` — one
`(sector, summed capacity)` pair per distinct sector, keys in ascending order. -/
def groupbySums (rows : Table) : List (String × ℚ) :=
  (sortedSectorKeys rows).map
    (fun s => (s, psum ((rows.filter (fun r => decide (r.sector = s))).map Record.tank_capacity)))

/-- capacity_by_sector embeds `app6.py` lines 89-92: group the first-day subset by
sector, sum `Tank Capacity`, then `sort_values` by descending capacity. -/
def capacity_by_sector (t : Table) : List (String × ℚ) :=
  List.insertionSort capGe (groupbySums (df_first_day t))

/-- unique_dates embeds `app6.py` line 130: `sorted(df_filtered['Date'].unique())`. -/
def unique_dates (t : Table) : List ℤ :=
  List.insertionSort (· ≤ ·) (uniqueList (t.map Record.date))

/-- unique_dates_dt_only embeds `app6.py` line 131: the sorted distinct dates,
filtered once more to weekdays. -/
def unique_dates_dt_only (t : Table) : List ℤ :=
  (unique_dates t).filter (fun d => decide (dayofweek d < 5))

/-- df_selected_date embeds `app6.py` line 141: rows matching the chosen date. -/
def df_selected_date (t : Table) (d : ℤ) : Table :=
  t.filter (fun r => decide (r.date = d))

/-- selectedView embeds `app6.py` lines 133-144: if there is no selectable date the
selected-date subset is the empty table (the `st.warning` branch, not an error);
otherwise the slider defaults to the last (latest) selectable date. -/
def selectedView (t : Table) : Table :=
  match unique_dates_dt_only t with
  | [] => []
  | d :: ds => df_selected_date t ((d :: ds).getLast (by simp))

end App6

/-- SectorFigure is the data content of one per-sector chart produced by
`generate_sector_plots`: the three series over `Post` (lines 184-206 of
`app6.py`). -/
structure SectorFigure where
  sector : String
  posts : List String
  tank_capacity : List (Option ℚ)
  available_storage_space : List (Option ℚ)
  days_of_supply : List (Option ℚ)
deriving DecidableEq

namespace App6

/-- generate_sector_plots embeds `app6.py` lines 172-219: restrict the input view
to one sector; `none` models the `return None` taken when no rows match
(`df_sector.empty`), otherwise the figure holds the three aligned series. -/
def generate_sector_plots (df_input : Table) (sector_name : String) : Option SectorFigure :=
  let df_sector := df_input.filter (fun r => decide (r.sector = sector_name))
  if df_sector.isEmpty then none
  else some
    { sector := sector_name
      posts := df_sector.map Record.post
      tank_capacity := df_sector.map Record.tank_capacity
      available_storage_space := df_sector.map Record.available_storage_space
      days_of_supply := df_sector.map Record.days_of_supply }

/-- uniqueSectorsBoundary embeds `app6.py` lines 224-227: the distinct sectors of
the table handed to the aggregator, with the excluded pseudo-sector removed
again at this boundary (`unique_sectors.remove(...)`; `unique()` yields distinct
values, so the single `remove` deletes every occurrence). -/
def uniqueSectorsBoundary (t : Table) : List String :=
  (uniqueList (t.map Record.sector)).erase UNDOF

/-- figures_to_display embeds the loop of `app6.py` lines 230-233: one figure per
iterated sector that has data; sectors yielding `None` are skipped. -/
def figures_to_display (view : Table) (sectors : List String) : List SectorFigure :=
  sectors.filterMap (generate_sector_plots view)

/-- chartsBranch embeds `app6.py` lines 229-241: when the selected-date subset is
empty no per-sector chart is generated (the `st.info` branch); otherwise the
figures come from iterating the boundary-filtered sector list. -/
def chartsBranch (t : Table) : List SectorFigure :=
  if (selectedView t).isEmpty then []
  else figures_to_display (selectedView t) (uniqueSectorsBoundary t)

end App6

namespace App7

/-- sectorFilter embeds `app7.py` lines 50-51: drop the excluded pseudo-sector
(there is no weekend filter in this variant). -/
def sectorFilter (df : Table) : Table :=
  df.filter (fun r => decide (r.sector ≠ UNDOF))

/-- workingTable is `df` of `app7.py` after line 51. -/
def workingTable (df : Table) : Table := sectorFilter df

/-- lastDay embeds `app7.py` line 55. -/
def lastDay (t : Table) : ℤ := ((t.map Record.date).max?).getD 0

/-- df_last_5_days embeds `app7.py` lines 56-57. -/
def df_last_5_days (t : Table) : Table :=
  t.filter (fun r => decide (lastDay t - 5 ≤ r.date))

/-- avg_consumption_last_5_days embeds `app7.py` line 59: despite its name it is
the SUM (not the mean) of `Avg Daily Consumption` over the trailing window. -/
def avg_consumption_last_5_days (t : Table) : ℚ :=
  round1 (psum ((df_last_5_days t).map Record.avg_daily_consumption))

/-- avg_last_5_days embeds `app7.py` line 63: sum of `Reported Stock` over the
trailing window, rounded. -/
def avg_last_5_days (t : Table) : ℚ :=
  round1 (psum ((df_last_5_days t).map Record.reported_stock))

/-- firstDay embeds `app7.py` line 64. -/
def firstDay (t : Table) : ℤ := ((t.map Record.date).min?).getD 0

/-- df_first_day embeds `app7.py` line 65. -/
def df_first_day (t : Table) : Table :=
  t.filter (fun r => decide (r.date = firstDay t))

/-- total_tank_capacity embeds `app7.py` line 66 (and the recomputed
`df_first_day['Tank Capacity'].sum()` of lines 71-72). -/
def total_tank_capacity (t : Table) : ℚ :=
  psum ((df_first_day t).map Record.tank_capacity)

/-- percentage embeds `app7.py` lines 71-74, including the
`if ... > 0 else 0.0` guard. -/
def percentage (t : Table) : ℚ :=
  if 0 < total_tank_capacity t then
    avg_last_5_days t / total_tank_capacity t * 100
  else 0

/-- unique_dates embeds `app7.py` line 118: `sorted(df['Date'].unique())`. -/
def unique_dates (t : Table) : List ℤ :=
  List.insertionSort (· ≤ ·) (uniqueList (t.map Record.date))

/-- unique_dates_dt_only embeds `app7.py` line 119: in this variant the list
comprehension only converts each entry, it filters nothing. -/
def unique_dates_dt_only (t : Table) : List ℤ := unique_dates t

/-- sliderRender embeds `app7.py` lines 121-127: building the date slider reads
`unique_dates_dt_only[0]` and `[-1]` with no emptiness guard, so on an empty
table it raises `IndexError` (modelled by `Except.error ()`), which the
top-level handler at lines 221-223 surfaces as an error. On a non-empty table
it yields `(min, max, default)` with the latest date as default. -/
def sliderRender (t : Table) : Except Unit (ℤ × ℤ × ℤ) :=
  match unique_dates_dt_only t with
  | [] => Except.error ()
  | d :: ds =>
    Except.ok (d, (d :: ds).getLast (by simp), (d :: ds).getLast (by simp))

end App7

/-- maxDateSpec is the spec's "max date" of a working table (§3, trailing-window
subset). -/
def maxDateSpec (t : Table) : ℤ := ((t.map Record.date).max?).getD 0

/-- trailingWindowSpec is §3's trailing-window subset as the spec words it:
records whose date is at least the max date minus 5 calendar days. -/
def trailingWindowSpec (t : Table) : Table :=
  t.filter (fun r => decide (maxDateSpec t - 5 ≤ r.date))

/-- trailingMeanSpec is §4.4's `avg_consumption_trailing_window` as the spec words
it: the arithmetic mean of `avg_daily_consumption` over the trailing-window
subset, skipping missing values, rounded to one decimal; `none` when every
value is missing. -/
def trailingMeanSpec (t : Table) : Option ℚ :=
  let xs := (trailingWindowSpec t).filterMap Record.avg_daily_consumption
  if xs = [] then none else some (round1 (xs.sum / (xs.length : ℚ)))

/-- trailingSumSpec is §4.4's `total_consumption_trailing_window` as the spec
words it: the sum of the non-missing `avg_daily_consumption` values over the
trailing-window subset, rounded to one decimal. -/
def trailingSumSpec (t : Table) : ℚ :=
  round1 ((trailingWindowSpec t).filterMap Record.avg_daily_consumption).sum

/-! Helper lemmas about the embedded pandas primitives. -/

lemma psum_nil : psum [] = 0 := rfl

lemma psum_cons (o : Option ℚ) (l : List (Option ℚ)) :
    psum (o :: l) = o.getD 0 + psum l := by
  simp [psum]

lemma psum_map_getD {α : Type} (f : α → Option ℚ) (l : List α) :
    psum (l.map f) = (l.map (fun a => (f a).getD 0)).sum := by
  simp [psum, List.map_map]
  rfl

lemma psum_map_eq_sum_filterMap {α : Type} (f : α → Option ℚ) (l : List α) :
    psum (l.map f) = (l.filterMap f).sum := by
  induction l with
  | nil => rfl
  | cons a l ih =>
    cases h : f a <;>
      simp [List.map_cons, psum_cons, List.filterMap_cons, h, ih]

lemma pcount_map_eq_length_filterMap {α : Type} (f : α → Option ℚ) (l : List α) :
    pcount (l.map f) = (l.filterMap f).length := by
  induction l with
  | nil => rfl
  | cons a l ih =>
    cases h : f a <;>
      simp [pcount, List.filterMap_cons, h, List.countP_cons] at ih ⊢ <;>
      omega

lemma pmean_map_eq {α : Type} (f : α → Option ℚ) (l : List α) :
    pmean (l.map f) =
      if l.filterMap f = [] then none
      else some ((l.filterMap f).sum / ((l.filterMap f).length : ℚ)) := by
  rw [pmean, psum_map_eq_sum_filterMap, pcount_map_eq_length_filterMap]
  by_cases h : l.filterMap f = []
  · simp [h]
  · have : (l.filterMap f).length ≠ 0 := by
      simpa [List.length_eq_zero] using h
    simp [h, this]

lemma sum_map_filter_split {α : Type} (g : α → ℚ) (p : α → Bool) (l : List α) :
    ((l.filter p).map g).sum + ((l.filter (fun a => !p a)).map g).sum
      = (l.map g).sum := by
  induction l with
  | nil => simp
  | cons a l ih =>
    cases hpa : p a <;> simp [List.filter_cons, hpa] <;> rw [← ih] <;> ring

lemma round1_intCast (n : ℤ) : round1 ((n : ℚ)) = (n : ℚ) := by
  have h : (10 : ℚ) * (n : ℚ) = ((10 * n : ℤ) : ℚ) := by push_cast; ring
  rw [round1, h, rhe]
  simp only [Rat.num_intCast, Rat.den_intCast, Nat.cast_one, Int.fdiv_one, mul_one,
    sub_self, mul_zero]
  rw [if_pos (by omega : (0 : ℤ) < 1)]
  push_cast
  ring

lemma mem_uniqueAux {α : Type} [DecidableEq α] :
    ∀ (l seen : List α) (a : α), a ∈ uniqueAux seen l ↔ a ∈ l ∧ a ∉ seen := by
  intro l
  induction l with
  | nil => simp [uniqueAux]
  | cons b l ih =>
    intro seen a
    rw [uniqueAux]
    by_cases hb : b ∈ seen
    · rw [if_pos hb, ih]
      by_cases hab : a = b
      · subst hab; simp [hb]
      · simp [hab]
    · rw [if_neg hb]
      by_cases hab : a = b
      · subst hab; simp [hb]
      · simp [hab, ih]

lemma mem_uniqueList {α : Type} [DecidableEq α] (l : List α) (a : α) :
    a ∈ uniqueList l ↔ a ∈ l := by
  rw [uniqueList, mem_uniqueAux]
  simp

lemma nodup_uniqueAux {α : Type} [DecidableEq α] :
    ∀ (l seen : List α), (uniqueAux seen l).Nodup := by
  intro l
  induction l with
  | nil => simp [uniqueAux]
  | cons b l ih =>
    intro seen
    rw [uniqueAux]
    by_cases hb : b ∈ seen
    · rw [if_pos hb]; exact ih seen
    · rw [if_neg hb, List.nodup_cons]
      refine ⟨fun hmem => ?_, ih _⟩
      have := (mem_uniqueAux l (b :: seen) b).mp hmem
      exact this.2 (by simp)

lemma nodup_uniqueList {α : Type} [DecidableEq α] (l : List α) :
    (uniqueList l).Nodup := nodup_uniqueAux l []

lemma char_toNat_injective {c d : Char} (h : c.toNat = d.toNat) : c = d :=
  Char.eq_of_val_eq (UInt32.ext h)

lemma ltChars_trichotomy :
    ∀ (cs ds : List Char), ltChars cs ds = true ∨ cs = ds ∨ ltChars ds cs = true := by
  intro cs
  induction cs with
  | nil =>
    intro ds
    cases ds with
    | nil => exact Or.inr (Or.inl rfl)
    | cons d ds => exact Or.inl rfl
  | cons c cs ih =>
    intro ds
    cases ds with
    | nil => exact Or.inr (Or.inr rfl)
    | cons d ds =>
      rcases Nat.lt_trichotomy c.toNat d.toNat with hlt | heq | hgt
      · exact Or.inl (by simp [ltChars, hlt])
      · have hcd : c = d := char_toNat_injective heq
        subst hcd
        rcases ih ds with h1 | h2 | h3
        · exact Or.inl (by simp [ltChars, h1])
        · exact Or.inr (Or.inl (by rw [h2]))
        · exact Or.inr (Or.inr (by simp [ltChars, h3]))
      · exact Or.inr (Or.inr (by simp [ltChars, hgt]))

lemma ltChars_trans :
    ∀ (cs ds es : List Char), ltChars cs ds = true → ltChars ds es = true →
      ltChars cs es = true := by
  intro cs
  induction cs with
  | nil =>
    intro ds es h1 h2
    cases ds with
    | nil => exact h2
    | cons d ds =>
      cases es with
      | nil => simp [ltChars] at h2
      | cons e es => simp [ltChars]
  | cons c cs ih =>
    intro ds es h1 h2
    cases ds with
    | nil => simp [ltChars] at h1
    | cons d ds =>
      cases es with
      | nil => simp [ltChars] at h2
      | cons e es =>
        simp only [ltChars] at h1 h2 ⊢
        by_cases hcd : c.toNat < d.toNat
        · by_cases hde : d.toNat < e.toNat
          · have : c.toNat < e.toNat := lt_trans hcd hde
            simp [this]
          · simp only [hde, if_false] at h2
            by_cases hed : e.toNat < d.toNat
            · simp [hed] at h2
            · have hde' : d.toNat = e.toNat := by omega
              have : c.toNat < e.toNat := hde' ▸ hcd
              simp [this]
        · simp only [hcd, if_false] at h1
          by_cases hdc : d.toNat < c.toNat
          · simp [hdc] at h1
          · have hcd' : c.toNat = d.toNat := by omega
            by_cases hde : d.toNat < e.toNat
            · have : c.toNat < e.toNat := hcd' ▸ hde
              simp [this]
            · simp only [hde, if_false] at h2
              by_cases hed : e.toNat < d.toNat
              · simp [hed] at h2
              · have hde' : d.toNat = e.toNat := by omega
                have hce : c.toNat = e.toNat := hcd'.trans hde'
                have h1' : ltChars cs ds = true := by
                  simpa [hcd, hdc] using h1
                have h2' : ltChars ds es = true := by
                  simpa [hde, hed] using h2
                simp [hce, lt_irrefl, ih ds es h1' h2']

lemma string_data_inj {a b : String} (h : a.data = b.data) : a = b := by
  cases a; cases b
  exact congrArg String.mk h

lemma pyStrLt_trans {a b c : String} (h1 : pyStrLt a b = true) (h2 : pyStrLt b c = true) :
    pyStrLt a c = true :=
  ltChars_trans a.data b.data c.data h1 h2

lemma pyStrLt_trichotomy (a b : String) :
    pyStrLt a b = true ∨ a = b ∨ pyStrLt b a = true := by
  rcases ltChars_trichotomy a.data b.data with h | h | h
  · exact Or.inl h
  · exact Or.inr (Or.inl (string_data_inj h))
  · exact Or.inr (Or.inr h)

instance : IsTotal String strKeyLe := by
  constructor
  intro a b
  rcases pyStrLt_trichotomy a b with h | h | h
  · exact Or.inl (Or.inl h)
  · exact Or.inl (Or.inr h)
  · exact Or.inr (Or.inl h)

instance : IsTrans String strKeyLe := by
  constructor
  intro a b c h1 h2
  rcases h1 with h1 | rfl
  · rcases h2 with h2 | rfl
    · exact Or.inl (pyStrLt_trans h1 h2)
    · exact Or.inl h1
  · exact h2

/-- capTieOrder is the order that actually holds between adjacent rows of the
sorted capacity table: strictly smaller summed capacity, or equal capacity with
strictly larger sector name (since `groupby(sort=True)` pre-sorts the keys and
the value sort is stable). -/
def capTieOrder (a b : String × ℚ) : Prop :=
  b.2 < a.2 ∨ (a.2 = b.2 ∧ pyStrLt a.1 b.1 = true)

lemma pairwise_orderedInsert_tie (a : String × ℚ) (m : List (String × ℚ))
    (hm : m.Pairwise capTieOrder) (ha : ∀ b ∈ m, pyStrLt a.1 b.1 = true) :
    (List.orderedInsert capGe a m).Pairwise capTieOrder := by
  induction m with
  | nil => simp
  | cons b bs ih =>
    rw [List.orderedInsert]
    by_cases h : capGe a b
    · rw [if_pos h]
      refine List.Pairwise.cons ?_ hm
      intro x hx
      have hxb : x = b ∨ x ∈ bs := by simpa using hx
      have hxle : x.2 ≤ a.2 := by
        rcases hxb with rfl | hxbs
        · exact h
        · have := List.rel_of_pairwise_cons hm hxbs
          rcases this with hlt | ⟨heq, _⟩
          · exact le_trans (le_of_lt hlt) h
          · exact le_trans (le_of_eq heq.symm) h
      rcases lt_or_eq_of_le hxle with hlt | heq
      · exact Or.inl hlt
      · refine Or.inr ⟨heq.symm, ?_⟩
        rcases hxb with rfl | hxbs
        · exact ha x (by simp)
        · exact ha x (by simp [hxbs])
    · rw [if_neg h]
      have hab : a.2 < b.2 := not_le.mp h
      refine List.Pairwise.cons ?_ (ih (List.Pairwise.sublist (List.sublist_cons_self b bs) hm)
        (fun x hx => ha x (by simp [hx])))
      intro x hx
      rcases (List.mem_orderedInsert capGe).mp hx with rfl | hxbs
      · exact Or.inl hab
      · exact List.rel_of_pairwise_cons hm hxbs

lemma pairwise_insertionSort_tie (l : List (String × ℚ))
    (hl : l.Pairwise (fun a b => pyStrLt a.1 b.1 = true)) :
    (List.insertionSort capGe l).Pairwise capTieOrder := by
  induction l with
  | nil => simp
  | cons a l ih =>
    rw [List.insertionSort]
    refine pairwise_orderedInsert_tie a _ (ih (List.Pairwise.sublist (List.sublist_cons_self a l) hl)) ?_
    intro b hb
    have hbl : b ∈ l := (List.perm_insertionSort capGe l).mem_iff.mp hb
    exact List.rel_of_pairwise_cons hl hbl

lemma mem_sortedSectorKeys (rows : Table) (s : String) :
    s ∈ App6.sortedSectorKeys rows ↔ s ∈ rows.map Record.sector := by
  rw [App6.sortedSectorKeys, (List.perm_insertionSort strKeyLe _).mem_iff,
    mem_uniqueList]

lemma nodup_sortedSectorKeys (rows : Table) : (App6.sortedSectorKeys rows).Nodup :=
  (List.perm_insertionSort strKeyLe _).symm.nodup (nodup_uniqueList _)

lemma pairwise_lt_sortedSectorKeys (rows : Table) :
    (App6.sortedSectorKeys rows).Pairwise (fun a b => pyStrLt a b = true) := by
  have hs : (App6.sortedSectorKeys rows).Pairwise strKeyLe :=
    List.sorted_insertionSort strKeyLe _
  have hnd : (App6.sortedSectorKeys rows).Nodup := nodup_sortedSectorKeys rows
  refine (hs.and hnd).imp ?_
  rintro a b ⟨hle | rfl, hne⟩
  · exact hle
  · exact absurd rfl hne

lemma sum_fiberSums (f : Record → Option ℚ) :
    ∀ (ks : List String) (rows : Table), ks.Nodup → (∀ r ∈ rows, r.sector ∈ ks) →
      (ks.map (fun s =>
          psum ((rows.filter (fun r => decide (r.sector = s))).map f))).sum
        = psum (rows.map f) := by
  intro ks
  induction ks with
  | nil =>
    intro rows _ hc
    have : rows = [] := by
      cases rows with
      | nil => rfl
      | cons r rs => exact absurd (hc r (by simp)) (List.not_mem_nil _)
    subst this
    simp [psum]
  | cons k ks ih =>
    intro rows hnd hc
    have hknot : k ∉ ks := (List.nodup_cons.mp hnd).1
    set rest := rows.filter (fun r => !(decide (r.sector = k))) with hrest
    have hsplit :
        psum ((rows.filter (fun r => decide (r.sector = k))).map f) + psum (rest.map f)
          = psum (rows.map f) := by
      rw [psum_map_getD, psum_map_getD, psum_map_getD]
      exact sum_map_filter_split _ _ rows
    have hfibers : ∀ s ∈ ks,
        rest.filter (fun r => decide (r.sector = s))
          = rows.filter (fun r => decide (r.sector = s)) := by
      intro s hs
      have hsk : s ≠ k := fun h => hknot (h ▸ hs)
      rw [hrest, List.filter_filter]
      refine List.filter_congr ?_
      intro r _
      by_cases hr : r.sector = s
      · have : r.sector ≠ k := fun h => hsk (hr ▸ h ▸ rfl)
        simp [hr, this, hsk]
      · simp [hr]
    have hrest_sectors : ∀ r ∈ rest, r.sector ∈ ks := by
      intro r hr
      rw [hrest, List.mem_filter] at hr
      have h1 := hc r hr.1
      have h2 : r.sector ≠ k := by simpa using hr.2
      simpa [h2] using h1
    have htail :
        (ks.map (fun s =>
            psum ((rows.filter (fun r => decide (r.sector = s))).map f))).sum
          = psum (rest.map f) := by
      rw [← ih rest (List.nodup_cons.mp hnd).2 hrest_sectors]
      refine congrArg List.sum (List.map_congr_left ?_)
      intro s hs
      rw [hfibers s hs]
    rw [List.map_cons, List.sum_cons, htail, hsplit]

/-! Concrete tables used by the scenario evaluations and witnesses. -/

/-- rowPlain is an ordinary weekday record of sector "A". -/
def rowPlain : Record := ⟨0, "A", "P1", some 100, some 50, some 20, some 10, some 4⟩

/-- tblPlain is a one-row working table of sector "A". -/
def tblPlain : Table := [rowPlain]

/-- rowMissingCap is a record whose `Tank Capacity` is missing (NaN), so the
first-day capacity sum is 0. -/
def rowMissingCap : Record := ⟨0, "A", "P1", none, some 50, some 20, some 10, some 4⟩

/-- tblMissingCap is a working table whose first-day subset sums to zero tank
capacity. -/
def tblMissingCap : Table := [rowMissingCap]

/-- tblSumMean is a working table (no excluded sector, one date) whose trailing
window holds consumptions 10 and 20: mean 15, sum 30. -/
def tblSumMean : Table :=
  [⟨0, "A", "P1", some 100, some 50, some 20, some 10, some 4⟩,
   ⟨0, "B", "P1", some 100, some 50, some 20, some 20, some 4⟩]

/-- rowTieB and rowTieA sit on the same (first) day with equal tank capacity;
sector "B" is discovered first. -/
def rowTieB : Record := ⟨0, "B", "P1", some 100, some 50, some 20, some 10, some 4⟩

/-- rowTieA is the second-discovered, alphabetically smaller sector of the tie table. -/
def rowTieA : Record := ⟨0, "A", "P1", some 100, some 50, some 20, some 20, some 4⟩

/-- tblTie is a working table whose two sectors tie on summed first-day capacity,
with discovery order "B" before "A". -/
def tblTie : Table := [rowTieB, rowTieA]

/-- rowS1 is the first Scenario 1 record: sector "A", capacity 100. -/
def rowS1 : Record := ⟨0, "A", "P1", some 100, some 50, some 20, some 10, some 4⟩

/-- rowS2 is the second Scenario 1 record: sector "A", capacity 200. -/
def rowS2 : Record := ⟨0, "A", "P2", some 200, some 50, some 20, some 10, some 4⟩

/-- rowS3 is the third Scenario 1 record: sector "B", capacity 50. -/
def rowS3 : Record := ⟨0, "B", "P1", some 50, some 50, some 20, some 10, some 4⟩

/-- tblScenario1 realises §8 Scenario 1: sector "A" has first-day capacities
100 and 200, sector "B" has 50. -/
def tblScenario1 : Table := [rowS1, rowS2, rowS3]

/-- rowTrail1 .. rowTrail4 realise §8 Scenario 3: dates D-6, D-4, D-2, D (D = 6)
with consumptions 10, 20, 30, 40. -/
def rowTrail1 : Record := ⟨0, "A", "P1", some 100, some 50, some 20, some 10, some 4⟩

/-- rowTrail2 is the D-4 record of the Scenario 3 table. -/
def rowTrail2 : Record := ⟨2, "A", "P1", some 100, some 50, some 20, some 20, some 4⟩

/-- rowTrail3 is the D-2 record of the Scenario 3 table. -/
def rowTrail3 : Record := ⟨4, "A", "P1", some 100, some 50, some 20, some 30, some 4⟩

/-- rowTrail4 is the D record of the Scenario 3 table. -/
def rowTrail4 : Record := ⟨6, "A", "P1", some 100, some 50, some 20, some 40, some 4⟩

/-- tblTrail is the Scenario 3 working table. -/
def tblTrail : Table := [rowTrail1, rowTrail2, rowTrail3, rowTrail4]

/-- rowSel is a selected-date record of sector "A" used in the Scenario 4 witness. -/
def rowSel : Record := ⟨4, "A", "P1", some 100, some 50, some 20, some 10, some 4⟩

/-- tblSelDate is a selected-date subset containing data for sector "A" only. -/
def tblSelDate : Table := [rowSel]

/-! Claim theorems. -/

/-- C9: applying the Sector Filter twice yields the same table as applying it
once, likewise for the Weekday Filter, and each filter keeps its surviving rows
in their original relative order (it returns a sublist of its input); both are
pure functions of the table. -/
theorem filters_idempotent_order_preserving (t : Table) :
    App6.sectorFilter (App6.sectorFilter t) = App6.sectorFilter t ∧
    App6.weekdayFilter (App6.weekdayFilter t) = App6.weekdayFilter t ∧
    (App6.sectorFilter t).Sublist t ∧
    (App6.weekdayFilter t).Sublist t := by
  refine ⟨?_, ?_, List.filter_sublist t, List.filter_sublist t⟩
  · rw [App6.sectorFilter, App6.sectorFilter, List.filter_filter]
    exact List.filter_congr (fun r _ => Bool.and_self _)
  · rw [App6.weekdayFilter, App6.weekdayFilter, List.filter_filter]
    exact List.filter_congr (fun r _ => Bool.and_self _)

/-- C9 witness: the theorem instantiated at the concrete table `tblPlain`. -/
theorem filters_idempotent_order_preserving_witness :
    App6.sectorFilter (App6.sectorFilter tblPlain) = App6.sectorFilter tblPlain ∧
    App6.weekdayFilter (App6.weekdayFilter tblPlain) = App6.weekdayFilter tblPlain ∧
    (App6.sectorFilter tblPlain).Sublist tblPlain ∧
    (App6.weekdayFilter tblPlain).Sublist tblPlain :=
  filters_idempotent_order_preserving tblPlain

/-- C10: the working table of app6 (weekday filter applied first, then the sector
filter) equals the table obtained by the spec's pipeline order (sector filter
first, then the weekday filter). -/
theorem filter_order_commutes (df : Table) :
    App6.workingTable df = App6.weekdayFilter (App6.sectorFilter df) := by
  rw [App6.workingTable, App6.sectorFilter, App6.sectorFilter, App6.weekdayFilter,
    App6.weekdayFilter, List.filter_filter, List.filter_filter]
  exact List.filter_congr (fun r _ => Bool.and_comm _ _)

/-- C1: on any working table whose first-day subset sums to zero tank capacity,
`percentage_full_capacity` is 0 and `vacancy_rate` is 100 in app6, and
`percentage` is 0 in app7; the guard takes the else-branch, so no division is
performed at all (the embedding is a total function either way). -/
theorem zero_capacity_safety (t : Table)
    (h6 : App6.total_tank_capacity t = 0) (h7 : App7.total_tank_capacity t = 0) :
    App6.percentage_full_capacity t = 0 ∧ App6.vacancy_rate t = 100 ∧
      App7.percentage t = 0 := by
  have hp6 : App6.percentage_full_capacity t = 0 := by
    rw [App6.percentage_full_capacity, if_neg]
    rw [h6]
    exact lt_irrefl 0
  refine ⟨hp6, ?_, ?_⟩
  · rw [App6.vacancy_rate, hp6]
    norm_num
  · rw [App7.percentage, if_neg]
    rw [h7]
    exact lt_irrefl 0

/-- C1 witness: a concrete working table whose only first-day capacity is
missing, so the capacity sum is 0. -/
theorem zero_capacity_safety_witness :
    App6.percentage_full_capacity tblMissingCap = 0 ∧
    App6.vacancy_rate tblMissingCap = 100 ∧
    App7.percentage tblMissingCap = 0 :=
  zero_capacity_safety tblMissingCap
    (by simp [App6.total_tank_capacity, App6.df_first_day, App6.firstDay,
      tblMissingCap, rowMissingCap, psum])
    (by simp [App7.total_tank_capacity, App7.df_first_day, App7.firstDay,
      tblMissingCap, rowMissingCap, psum])

/-- C3: evaluation of both variants at the failing input, the empty working
table. In app6 the option list is empty, the selected view is the empty table
and no chart is generated — the warning/info branches, not errors. In app7 the
slider construction reads `unique_dates_dt_only[0]` on the empty list and
raises IndexError (`Except.error ()`), which the top-level handler surfaces as
an error, contradicting the spec's "valid, non-error state". -/
theorem empty_table_date_selector_behavior :
    App6.unique_dates_dt_only ([] : Table) = [] ∧
    App6.selectedView ([] : Table) = [] ∧
    App6.chartsBranch ([] : Table) = [] ∧
    App7.sliderRender ([] : Table) = Except.error () := by
  refine ⟨?_, ?_, ?_, rfl⟩ <;> rfl

/-- C4: every derived view of the app6 working table (first-day, last-day,
trailing-window, and selected-date subsets) contains no row of the excluded
pseudo-sector, and the sector list iterated by the aggregator excludes it for
every input table — even an unfiltered one — because lines 226-227 remove it
again at the aggregator boundary. -/
theorem undof_exclusion_invariant (df : Table) (r : Record) :
    (r ∈ App6.df_first_day (App6.workingTable df) → r.sector ≠ UNDOF) ∧
    (r ∈ App6.df_last_day (App6.workingTable df) → r.sector ≠ UNDOF) ∧
    (r ∈ App6.df_last_5_days (App6.workingTable df) → r.sector ≠ UNDOF) ∧
    (∀ d : ℤ, r ∈ App6.df_selected_date (App6.workingTable df) d → r.sector ≠ UNDOF) ∧
    UNDOF ∉ App6.uniqueSectorsBoundary df := by
  have hw : ∀ x ∈ App6.workingTable df, x.sector ≠ UNDOF := by
    intro x hx
    rw [App6.workingTable, App6.sectorFilter, List.mem_filter] at hx
    simpa using hx.2
  refine ⟨?_, ?_, ?_, ?_, ?_⟩
  · intro hr
    exact hw r ((List.mem_filter.mp hr).1)
  · intro hr
    exact hw r ((List.mem_filter.mp hr).1)
  · intro hr
    exact hw r ((List.mem_filter.mp hr).1)
  · intro d hr
    exact hw r ((List.mem_filter.mp hr).1)
  · intro hmem
    rw [App6.uniqueSectorsBoundary] at hmem
    exact (((nodup_uniqueList _).mem_erase_iff).mp hmem).1 rfl

/-- C4 witness: the invariant instantiated at the one-row table `tblPlain` and
its row, with the first-day membership hypothesis discharged concretely. -/
theorem undof_exclusion_invariant_witness :
    rowPlain.sector ≠ UNDOF ∧ UNDOF ∉ App6.uniqueSectorsBoundary tblPlain :=
  ⟨(undof_exclusion_invariant tblPlain rowPlain).1 (by decide),
   (undof_exclusion_invariant tblPlain rowPlain).2.2.2.2⟩

/-- C7: when no record of the view matches a sector, `generate_sector_plots`
returns the explicit no-data signal `none` (the embedding is a total function,
so no error is possible), and every other sector of the iterated list whose
plot exists still contributes its figure to the displayed list. -/
theorem sector_no_data_signal (view : Table) (sectors : List String) (s : String)
    (h : ∀ r ∈ view, r.sector ≠ s) :
    App6.generate_sector_plots view s = none ∧
    (∀ s' ∈ sectors, ∀ fig, App6.generate_sector_plots view s' = some fig →
        fig ∈ App6.figures_to_display view sectors) := by
  constructor
  · have hnil : view.filter (fun r => decide (r.sector = s)) = [] := by
      rw [List.filter_eq_nil_iff]
      intro r hr
      simpa using h r hr
    simp [App6.generate_sector_plots, hnil]
  · intro s' hs' fig hfig
    rw [App6.figures_to_display, List.mem_filterMap]
    exact ⟨s', hs', hfig⟩

/-- C7 witness: Scenario 4 — sector "C" has no row on the selected date, sector
"A" does; "C" yields the no-data signal while "A" would still display. -/
theorem sector_no_data_signal_witness :
    App6.generate_sector_plots tblSelDate "C" = none ∧
    (∀ s' ∈ ["A", "C"], ∀ fig, App6.generate_sector_plots tblSelDate s' = some fig →
        fig ∈ App6.figures_to_display tblSelDate ["A", "C"]) :=
  sector_no_data_signal tblSelDate ["A", "C"] "C" (by decide)

lemma round1_eval_int (n : ℤ) (q : ℚ) (hq : q = (n : ℚ)) : round1 q = q := by
  rw [hq, round1_intCast]

/-- C6: membership in the trailing-window subset is exactly "date at least the
maximum date minus 5", with the boundary inclusive; on the Scenario 3 table
(dates D-6, D-4, D-2, D with consumptions 10, 20, 30, 40) the subset holds the
last three records, the mean metric is 30 and the sum metric is 90. -/
theorem trailing_window_inclusive (t : Table) (h : t ≠ []) (r : Record) :
    (r ∈ App6.df_last_5_days t ↔ r ∈ t ∧ App6.lastDay t - 5 ≤ r.date) ∧
    App6.df_last_5_days tblTrail = [rowTrail2, rowTrail3, rowTrail4] ∧
    App6.avg_consumption_last_5_days tblTrail = some 30 ∧
    App6.total_consumption_last_5_days tblTrail = 90 := by
  have hwin : App6.df_last_5_days tblTrail = [rowTrail2, rowTrail3, rowTrail4] := by
    decide
  have hmap : [rowTrail2, rowTrail3, rowTrail4].map Record.avg_daily_consumption
      = [some 20, some 30, some 40] := by decide
  refine ⟨?_, hwin, ?_, ?_⟩
  · rw [App6.df_last_5_days, List.mem_filter]
    simp
  · rw [App6.avg_consumption_last_5_days, hwin, hmap]
    have hc : pcount [some (20:ℚ), some 30, some 40] = 3 := by decide
    have hs : psum [some (20:ℚ), some 30, some 40] = 90 := by
      simp [psum]
      norm_num
    rw [pmean, hc, hs, if_neg (by norm_num)]
    rw [show Option.map round1 (some ((90 : ℚ) / (3 : ℕ))) = some (round1 (90 / 3)) by rfl]
    rw [round1_eval_int 30 _ (by norm_num)]
    norm_num
  · rw [App6.total_consumption_last_5_days, hwin, hmap]
    have hs : psum [some (20:ℚ), some 30, some 40] = 90 := by
      simp [psum]
      norm_num
    rw [hs, round1_eval_int 90 _ (by norm_num)]

/-- C6 witness: the membership characterisation instantiated at the Scenario 3
table and its D-6 record (which the window excludes). -/
theorem trailing_window_inclusive_witness :
    rowTrail1 ∈ App6.df_last_5_days tblTrail ↔
      rowTrail1 ∈ tblTrail ∧ App6.lastDay tblTrail - 5 ≤ rowTrail1.date :=
  (trailing_window_inclusive tblTrail (by decide) rowTrail1).1

/-- C2 counterexample: `tblSumMean` is a non-empty working table (the app7 sector
filter leaves it unchanged) whose trailing window holds consumptions 10 and 20;
the spec's arithmetic mean is 15 but app7's `avg_consumption_last_5_days`
evaluates to the sum 30, so the metric does not equal the mean. -/
theorem trailing_metric_mean_counterexample :
    App7.workingTable tblSumMean = tblSumMean ∧
    tblSumMean ≠ [] ∧
    trailingMeanSpec tblSumMean = some 15 ∧
    App7.avg_consumption_last_5_days tblSumMean = 30 ∧
    App7.avg_consumption_last_5_days tblSumMean ≠ 15 := by
  have hwt : App7.workingTable tblSumMean = tblSumMean := by decide
  have hwin : trailingWindowSpec tblSumMean = tblSumMean := by decide
  have hwin7 : App7.df_last_5_days tblSumMean = tblSumMean := by decide
  have hfm : tblSumMean.filterMap Record.avg_daily_consumption = [10, 20] := by decide
  have hmap : tblSumMean.map Record.avg_daily_consumption = [some 10, some 20] := by
    decide
  have hps : psum [some (10:ℚ), some 20] = 30 := by
    simp [psum]
    norm_num
  have hval : App7.avg_consumption_last_5_days tblSumMean = 30 := by
    rw [App7.avg_consumption_last_5_days, hwin7, hmap, hps,
      round1_eval_int 30 _ (by norm_num)]
  refine ⟨hwt, by decide, ?_, hval, by rw [hval]; norm_num⟩
  rw [trailingMeanSpec]
  simp only [hwin, hfm]
  rw [if_neg (by simp)]
  rw [show ((10:ℚ) :: [20]).sum / (([10, 20] : List ℚ).length : ℚ) = (10 + 20) / 2 by
    norm_num]
  rw [show ((10:ℚ) + 20) / 2 = 15 by norm_num, round1_eval_int 15 _ (by norm_num)]

/-- C2 amended: the two snapshots disagree — in app6 the trailing metric equals
the spec's rounded arithmetic mean of `avg_daily_consumption` over the
trailing-window subset with missing values skipped, while in app7 the
identically named metric equals the rounded sum instead. -/
theorem trailing_metric_amended (t : Table) (h : t ≠ []) :
    App6.avg_consumption_last_5_days t = trailingMeanSpec t ∧
    App7.avg_consumption_last_5_days t = trailingSumSpec t := by
  have hw6 : App6.df_last_5_days t = trailingWindowSpec t := rfl
  have hw7 : App7.df_last_5_days t = trailingWindowSpec t := rfl
  constructor
  · rw [App6.avg_consumption_last_5_days, hw6, pmean_map_eq, trailingMeanSpec]
    by_cases hnil : (trailingWindowSpec t).filterMap Record.avg_daily_consumption = []
    · simp [hnil]
    · simp [hnil]
  · rw [App7.avg_consumption_last_5_days, hw7, trailingSumSpec,
      psum_map_eq_sum_filterMap]

/-- C2 amended witness: the amended equalities instantiated at the concrete
non-empty working table `tblSumMean`. -/
theorem trailing_metric_amended_witness :
    App6.avg_consumption_last_5_days tblSumMean = trailingMeanSpec tblSumMean ∧
    App7.avg_consumption_last_5_days tblSumMean = trailingSumSpec tblSumMean :=
  trailing_metric_amended tblSumMean (by decide)

/-- C5 counterexample: in `tblTie` the sectors are discovered in order "B", "A"
and tie on summed first-day capacity, so the claimed discovery-order
tie-breaking would give [("B",100), ("A",100)]; the code returns
[("A",100), ("B",100)] because `groupby(sort=True)` has already sorted the keys
alphabetically before the capacity sort runs. -/
theorem capacity_sort_tie_counterexample :
    App6.capacity_by_sector tblTie = [("A", 100), ("B", 100)] ∧
    App6.capacity_by_sector tblTie ≠ [("B", 100), ("A", 100)] := by
  have h1 : App6.df_first_day tblTie = tblTie := by decide
  have h2 : App6.sortedSectorKeys tblTie = ["A", "B"] := by decide
  have hfA : tblTie.filter (fun r => decide (r.sector = "A")) = [rowTieA] := by decide
  have hfB : tblTie.filter (fun r => decide (r.sector = "B")) = [rowTieB] := by decide
  have hg : App6.groupbySums (App6.df_first_day tblTie) = [("A", (100:ℚ)), ("B", 100)] := by
    rw [h1, App6.groupbySums, h2]
    simp only [List.map_cons, List.map_nil, hfA, hfB]
    simp [rowTieA, rowTieB, psum]
  have hval : App6.capacity_by_sector tblTie = [("A", (100:ℚ)), ("B", 100)] := by
    rw [App6.capacity_by_sector, hg]
    decide
  refine ⟨hval, ?_⟩
  rw [hval]
  decide

/-- C5 amended: `capacity_by_sector` groups the first-day subset by sector and
sums `tank_capacity` per group (the membership characterisation below), returns
the groups sorted by descending summed capacity with ties broken by ascending
sector name — not by group-discovery order, which `groupby(sort=True)` has
already destroyed — and on the Scenario 1 table evaluates to
[("A",300), ("B",50)]. -/
theorem capacity_by_sector_amended (t : Table) :
    (App6.capacity_by_sector t).Pairwise capTieOrder ∧
    (∀ p : String × ℚ, p ∈ App6.capacity_by_sector t ↔
        p.1 ∈ (App6.df_first_day t).map Record.sector ∧
        p.2 = psum (((App6.df_first_day t).filter
          (fun r => decide (r.sector = p.1))).map Record.tank_capacity)) ∧
    App6.capacity_by_sector tblScenario1 = [("A", 300), ("B", 50)] := by
  refine ⟨?_, ?_, ?_⟩
  · rw [App6.capacity_by_sector]
    apply pairwise_insertionSort_tie
    rw [App6.groupbySums, List.pairwise_map]
    exact pairwise_lt_sortedSectorKeys _
  · intro p
    rw [App6.capacity_by_sector, (List.perm_insertionSort capGe _).mem_iff,
      App6.groupbySums, List.mem_map]
    constructor
    · rintro ⟨s, hs, rfl⟩
      exact ⟨(mem_sortedSectorKeys _ _).mp hs, rfl⟩
    · rintro ⟨hmem, hval⟩
      refine ⟨p.1, (mem_sortedSectorKeys _ _).mpr hmem, ?_⟩
      exact Prod.ext rfl hval.symm
  · have h1 : App6.df_first_day tblScenario1 = tblScenario1 := by decide
    have h2 : App6.sortedSectorKeys tblScenario1 = ["A", "B"] := by decide
    have hfA : tblScenario1.filter (fun r => decide (r.sector = "A"))
        = [rowS1, rowS2] := by decide
    have hfB : tblScenario1.filter (fun r => decide (r.sector = "B"))
        = [rowS3] := by decide
    have hg : App6.groupbySums (App6.df_first_day tblScenario1)
        = [("A", (300:ℚ)), ("B", 50)] := by
      rw [h1, App6.groupbySums, h2]
      simp only [List.map_cons, List.map_nil, hfA, hfB]
      simp [rowS1, rowS2, rowS3, psum]
      norm_num
    rw [App6.capacity_by_sector, hg]
    decide

/-- C8: the per-sector capacity totals of the sorted capacity table sum to the
`tank_capacity` sum over the whole first-day subset, i.e. to the Metric
Engine's `total_tank_capacity`. -/
theorem capacity_grouping_sum (t : Table) :
    ((App6.capacity_by_sector t).map Prod.snd).sum = App6.total_tank_capacity t := by
  rw [App6.capacity_by_sector, App6.total_tank_capacity]
  rw [((List.perm_insertionSort capGe (App6.groupbySums (App6.df_first_day t))).map
    Prod.snd).sum_eq]
  rw [App6.groupbySums, List.map_map]
  exact sum_fiberSums Record.tank_capacity _ _ (nodup_sortedSectorKeys _)
    (fun r hr => (mem_sortedSectorKeys _ _).mpr (List.mem_map_of_mem Record.sector hr))
